import Mathlib

/-!
Shallow embedding of the invenio-records-rest core: the declarative endpoint
configuration (`config.py`) and the serializer response surface exercised by
`tests/test_serializer_response.py`.  Components whose implementation lives
outside the packaged sources (response serializers, search pipeline, sorter,
content negotiator, permission factory bodies) are modelled from the spec, as
marked in their doc comments.
-/

namespace InvenioRecordsRest

/-! ## Data model -/

/-- A record payload, modelled as a list of field/value pairs
(mirrors `Record({"title": "test"})` in the tests). -/
abbrev Doc := List (String × String)

/-- Field lookup on a record payload (mirrors `record["title"]`). -/
def Doc.get (d : Doc) (k : String) : Option String :=
  (d.find? (fun p => p.1 == k)).map Prod.snd

/-- A persistent identifier, as constructed in the tests:
`PersistentIdentifier(pid_type="rec", pid_value="1")`. -/
structure PersistentIdentifier where
  pid_type : String
  pid_value : String
deriving DecidableEq, Repr

/-- An HTTP response as observed by the serializer tests: status code,
content type, body, and the full header list. -/
structure Response where
  status_code : Nat
  content_type : String
  body : String
  headers : List (String × String)
deriving DecidableEq, Repr

/-- Association-list lookup used for the configuration maps
(serializer maps, alias maps, sort registries). -/
def lookupStr {α : Type} (m : List (String × α)) (k : String) : Option α :=
  (m.find? (fun p => p.1 == k)).map Prod.snd

/-! ## Permission factories (config.py lines 357-370)

The factory bodies (`allow_all`, `deny_all`, `check_search`) live in
`invenio_records_rest/utils.py`, which is not among the packaged sources;
they are modelled from the spec and from the config docstrings that name
them ("allow all requests", "reject any request",
"check if the record exists"). -/

/-- The resource context a permission factory inspects: whether the
requested identity resolves, and whether it resolved to a removed record. -/
structure ResourceContext where
  resolvable : Bool
  gone : Bool
deriving DecidableEq, Repr

/-- Modelled from the spec: `allow_all` from `invenio_records_rest.utils`
(missing from the packaged sources) — "allow all requests". -/
def allow_all (_ctx : ResourceContext) : Bool := true

/-- Modelled from the spec: `deny_all` from `invenio_records_rest.utils`
(missing from the packaged sources) — "reject any request". -/
def deny_all (_ctx : ResourceContext) : Bool := false

/-- Modelled from the spec: `check_search` from `invenio_records_rest.utils`
(missing from the packaged sources) — allow only if the identity resolves
and is not gone ("check if the record exists"). -/
def check_search (ctx : ResourceContext) : Bool := ctx.resolvable && !ctx.gone

/-- The five endpoint operations guarded by permission factories. -/
inductive Operation
  | list
  | read
  | create
  | update
  | delete
deriving DecidableEq, Repr

/-- The default permission factory per operation, exactly as assigned in
`config.py` lines 357-370: create/update/delete map to `deny_all`, list maps
to `allow_all`, read maps to `check_search`. -/
def defaultPermissionFactory : Operation → ResourceContext → Bool
  | Operation.list => allow_all
  | Operation.read => check_search
  | Operation.create => deny_all
  | Operation.update => deny_all
  | Operation.delete => deny_all

/-! ## Endpoint configuration (config.py lines 19-42) -/

/-- The fields of one `RECORDS_REST_ENDPOINTS` entry that the claims
reference.  String-valued import paths are kept as strings. -/
structure EndpointConfig where
  pid_type : String
  pid_minter : String
  pid_fetcher : String
  record_serializers : List (String × String)
  search_serializers : List (String × String)
  list_route : String
  item_route : String
  default_media_type : String
  max_result_window : Nat
deriving DecidableEq, Repr

/-- The default `recid` endpoint from `RECORDS_REST_ENDPOINTS` in
`config.py` (adjacent string literals in the Python source concatenate). -/
def recid_endpoint : EndpointConfig :=
  { pid_type := "recid"
    pid_minter := "recid"
    pid_fetcher := "recid"
    record_serializers :=
      [("application/json", "invenio_records_rest.serializers:json_v1_response")]
    search_serializers :=
      [("application/json", "invenio_records_rest.serializers:json_v1_search")]
    list_route := "/records/"
    item_route := "/records/<pid(recid):pid_value>"
    default_media_type := "application/json"
    max_result_window := 10000 }

/-- `RECORDS_REST_DEFAULT_RESULTS_SIZE = 10` (config.py line 381). -/
def RECORDS_REST_DEFAULT_RESULTS_SIZE : Nat := 10

/-- Modelled from the spec: the pagination parameter resolution performed by
the request handling layer (not among the packaged sources) — a request that
does not specify a page size receives the configured default size. -/
def resolveSize (sizeArg : Option Nat) : Nat :=
  sizeArg.getD RECORDS_REST_DEFAULT_RESULTS_SIZE

/-- `RECORDS_REST_FACETS_POST_FILTERS_PROPAGATE = False` (config.py line 354). -/
def RECORDS_REST_FACETS_POST_FILTERS_PROPAGATE : Bool := false

/-! ## Response serializers

`record_responsify` and `search_responsify` live in
`invenio_records_rest/serializers/response.py`, which is not among the
packaged sources; only their test (`tests/test_serializer_response.py`) is.
They are modelled from the spec (§4.4): the bound media type becomes the
response content type, the serializer output becomes the body, the caller
supplied status code becomes the response status, and extra headers are
merged into (appended after) the content-type header, never replacing it. -/

/-- Modelled from the spec: `record_responsify` from
`invenio_records_rest.serializers.response` (missing from the packaged
sources).  Binds a single-record serializer function to a media type,
producing a function of pid, record, status code, and extra headers. -/
def record_responsify (serialize : PersistentIdentifier → Doc → String)
    (mimetype : String) (pid : PersistentIdentifier) (record : Doc)
    (code : Nat) (headers : List (String × String)) : Response :=
  { status_code := code
    content_type := mimetype
    body := serialize pid record
    headers := ("Content-Type", mimetype) :: headers }

/-- Modelled from the spec: `search_responsify` from
`invenio_records_rest.serializers.response` (missing from the packaged
sources).  Binds a search-result serializer to a media type; the serializer
receives the pid fetcher and the result sequence. -/
def search_responsify {F R : Type} (serialize_search : F → List R → String)
    (mimetype : String) (fetcher : F) (result : List R)
    (code : Nat) (headers : List (String × String)) : Response :=
  { status_code := code
    content_type := mimetype
    body := serialize_search fetcher result
    headers := ("Content-Type", mimetype) :: headers }

/-- The dummy serializer of `tests/test_serializer_response.py`:
`serialize` returns `"{pid_value}:{title}"`. -/
def TestSerializer.serialize (pid : PersistentIdentifier) (record : Doc) : String :=
  pid.pid_value ++ ":" ++ ((record.get "title").getD "")

/-- The dummy search serializer of `tests/test_serializer_response.py`:
`serialize_search` returns `str(len(result))`. -/
def TestSerializer.serialize_search {F R : Type} (_fetcher : F) (result : List R) : String :=
  toString result.length

/-! ## Search query pipeline: result window (spec §4.5 step 6)

The pipeline implementation (`invenio_records_rest/views.py` /
`query.py`) is not among the packaged sources; it is modelled from the
spec.  `max_result_window` comes from the endpoint configuration above. -/

/-- The typed errors of the modelled pipeline. -/
inductive PipelineError
  | resultWindowExceeded
deriving DecidableEq, Repr

/-- A search request as derived from the query string: optional free-text
query, optional sort name, 1-based page number, and page size. -/
structure SearchRequest where
  q : Option String
  sort : Option String
  page : Nat
  size : Nat
deriving DecidableEq, Repr

/-- The zero-based offset of a paginated request: `(page - 1) * size`. -/
def SearchRequest.offset (r : SearchRequest) : Nat := (r.page - 1) * r.size

/-- Modelled from the spec: the window check of §4.5 step 6 — reject with
`ResultWindowExceededError` if `offset + size > max_result_window`. -/
def checkWindow (max_result_window off size : Nat) : Except PipelineError Unit :=
  if max_result_window < off + size then
    Except.error PipelineError.resultWindowExceeded
  else
    Except.ok ()

/-- Modelled from the spec: the paginated search execution (missing from the
packaged sources).  The window check runs first; only on success is the
external index collaborator consulted and the result sliced — never
silently truncated past the requested window. -/
def executeSearch {Q R : Type} (index : Q → List R)
    (buildQuery : SearchRequest → Q) (max_result_window : Nat)
    (req : SearchRequest) : Except PipelineError (List R) :=
  match checkWindow max_result_window req.offset req.size with
  | Except.error e => Except.error e
  | Except.ok _ =>
      Except.ok (((index (buildQuery req)).drop req.offset).take req.size)

/-! ## Faceted search: post filters and propagation (spec §4.5 steps 2-4)

`invenio_records_rest/facets.py` is not among the packaged sources (only
`terms_filter` is imported by `config.py`); the faceted pipeline is
modelled from the spec.  The propagation toggle is the configuration value
`RECORDS_REST_FACETS_POST_FILTERS_PROPAGATE` above. -/

/-- Modelled from the spec: `terms_filter` from
`invenio_records_rest.facets` (missing from the packaged sources) — a
filter matching documents whose named field carries the given value. -/
def terms_filter (field value : String) (d : Doc) : Bool :=
  d.contains (field, value)

/-- A document satisfies every selected post filter; each selection pairs a
facet key with a value, filtered through `terms_filter` on that key (the
shape of the default `RECORDS_REST_FACETS` entry, where the `type` facet
maps to `terms_filter("type")`). -/
def matchesPostFilters (sel : List (String × String)) (d : Doc) : Bool :=
  sel.all (fun kv => terms_filter kv.1 kv.2 d)

/-- The per-category aggregation-eligible document count.  Modelled from the
spec (§4.5 step 4): with propagation enabled, the post filters of all
*other* facet keys are applied to this category's aggregation; with it
disabled, post filters do not affect aggregations. -/
def aggCount (queryMatch : Doc → Bool) (sel : List (String × String))
    (propagate : Bool) (docs : List Doc) (category : String) : Nat :=
  ((docs.filter queryMatch).filter (fun d =>
      if propagate then matchesPostFilters (sel.filter (fun kv => kv.1 != category)) d
      else true)).length

/-- The outcome of a faceted search: the base hits and the aggregation
counts per configured facet category. -/
structure SearchOutcome where
  hits : List Doc
  aggCounts : List (String × Nat)
deriving DecidableEq, Repr

/-- Modelled from the spec: the faceted search pipeline (missing from the
packaged sources).  Post filters always apply to the base result set after
aggregation; the propagation toggle only enters the per-category
aggregation computation. -/
def facetedSearch (queryMatch : Doc → Bool) (sel : List (String × String))
    (aggs : List String) (propagate : Bool) (docs : List Doc) : SearchOutcome :=
  { hits := (docs.filter queryMatch).filter (matchesPostFilters sel)
    aggCounts := aggs.map (fun c => (c, aggCount queryMatch sel propagate docs c)) }

/-! ## Sort options and default sort (config.py lines 259-320) -/

/-- One entry of `RECORDS_REST_SORT_OPTIONS`. -/
structure SortOption where
  title : String
  fields : List String
  default_order : String
  order : Nat
deriving DecidableEq, Repr

/-- `RECORDS_REST_SORT_OPTIONS` from `config.py`: the `records` index
registers `bestmatch` and `mostrecent`. -/
def RECORDS_REST_SORT_OPTIONS : List (String × List (String × SortOption)) :=
  [("records",
    [("bestmatch",
      { title := "Best match", fields := ["_score"], default_order := "desc", order := 1 }),
     ("mostrecent",
      { title := "Most recent", fields := ["-_created"], default_order := "asc", order := 2 })])]

/-- One entry of `RECORDS_REST_DEFAULT_SORT`: the default sort name when a
free-text query is present (`query`) and when it is absent (`noquery`). -/
structure DefaultSortPair where
  query : String
  noquery : String
deriving DecidableEq, Repr

/-- `RECORDS_REST_DEFAULT_SORT` from `config.py`: for the `records` index,
`query = "bestmatch"` and `noquery = "mostrecent"`. -/
def RECORDS_REST_DEFAULT_SORT : List (String × DefaultSortPair) :=
  [("records", { query := "bestmatch", noquery := "mostrecent" })]

/-- Modelled from the spec: the sorter's resolution step (§4.5 step 5,
implementation missing from the packaged sources) — resolve the requested
sort name against the per-index registry; if no sort is specified, fall
back to the index's query-present/absent default from
`RECORDS_REST_DEFAULT_SORT`. -/
def resolveSortKey (index : String) (sortArg : Option String)
    (hasQuery : Bool) : Option String :=
  match sortArg with
  | some s =>
      if (lookupStr ((lookupStr RECORDS_REST_SORT_OPTIONS index).getD []) s).isSome
      then some s else none
  | none =>
      (lookupStr RECORDS_REST_DEFAULT_SORT index).map
        (fun p => if hasQuery then p.query else p.noquery)

/-! ## Default record loaders (config.py lines 237-240) -/

/-- An inbound HTTP request as the loaders see it: its declared content
type and the JSON parse of its body (`none` when the body is not valid
JSON). -/
structure HttpRequest where
  content_type : String
  json_body : Option Doc
deriving DecidableEq, Repr

/-- Whether a declared content type is a JSON media type (the mimetype is
`application/json` or ends in `+json`), per the HTTP framework's
`request.is_json`.  The suffix test is phrased on the character list. -/
def isJsonContentType (ct : String) : Bool :=
  ct == "application/json" || "+json".data.isSuffixOf ct.data

/-- The HTTP framework's `request.get_json(force=...)`, as called by the
default loaders in `config.py`: with `force` the body is parsed as JSON
regardless of the declared content type; without it, parsing happens only
when the request declares a JSON content type. -/
def get_json (force : Bool) (req : HttpRequest) : Option Doc :=
  if force || isJsonContentType req.content_type then req.json_body else none

/-- The `application/json` entry of `RECORDS_REST_DEFAULT_LOADERS`:
`lambda: request.get_json()`. -/
def json_loader (req : HttpRequest) : Option Doc := get_json false req

/-- The `application/json-patch+json` entry of
`RECORDS_REST_DEFAULT_LOADERS`: `lambda: request.get_json(force=True)`. -/
def json_patch_loader (req : HttpRequest) : Option Doc := get_json true req

/-- `RECORDS_REST_DEFAULT_LOADERS` from `config.py` lines 237-240. -/
def RECORDS_REST_DEFAULT_LOADERS : List (String × (HttpRequest → Option Doc)) :=
  [("application/json", json_loader),
   ("application/json-patch+json", json_patch_loader)]

/-! ## Content negotiator (spec §4.3; implementation not in the packaged
sources, modelled from the spec) -/

/-- Modelled from the spec: the content negotiator `select` step (§4.3,
missing from the packaged sources).  Resolution order: explicit format
parameter through the alias map, then the accept preference order against
the available bindings, then the configured default media type. -/
def selectSerializer (formatArg : Option String)
    (aliases : List (String × String)) (acceptOrder : List String)
    (bindings : List (String × String)) (default_media_type : String) :
    Option String :=
  match formatArg.bind (fun f => lookupStr aliases f) with
  | some mt => lookupStr bindings mt
  | none =>
      match acceptOrder.findSome? (fun mt => lookupStr bindings mt) with
      | some s => some s
      | none => lookupStr bindings default_media_type

/-! ## Helper lemmas -/

/-- With no format parameter and a default media type that is bound, the
negotiator returns a binding for every accept preference order. -/
theorem selectSerializer_fallback_isSome (acceptOrder : List String)
    (bindings : List (String × String)) (dmt : String)
    (hd : (lookupStr bindings dmt).isSome = true) :
    (selectSerializer none [] acceptOrder bindings dmt).isSome = true := by
  unfold selectSerializer
  cases hfind : acceptOrder.findSome? (fun mt => lookupStr bindings mt) with
  | none => simpa [hfind] using hd
  | some s => simp [hfind]

/-! ## Claim theorems -/

/-- C1 counterexample: the claim says the list operation defaults to
allow-if-resolvable, but `RECORDS_REST_DEFAULT_LIST_PERMISSION_FACTORY` is
`allow_all`: the default list factory allows a request even when the
identity does not resolve, which allow-if-resolvable (`check_search`) would
deny. -/
theorem C1_list_default_counterexample :
    ¬ (∀ ctx : ResourceContext,
        defaultPermissionFactory Operation.list ctx = check_search ctx) := by
  intro h
  have hx := h { resolvable := false, gone := false }
  simp [defaultPermissionFactory, allow_all, check_search] at hx

/-- C1 (amended): among the five default permission factories, list
defaults to allow-all, read defaults to allow-if-resolvable (allowing only
when the identity resolves and is not gone), and create, update, and delete
default to deny-all (config.py lines 357-370). -/
theorem C1_default_permission_factories :
    (∀ ctx : ResourceContext, defaultPermissionFactory Operation.list ctx = true) ∧
    (∀ ctx : ResourceContext,
      defaultPermissionFactory Operation.read ctx = (ctx.resolvable && !ctx.gone)) ∧
    (∀ ctx : ResourceContext, defaultPermissionFactory Operation.create ctx = false) ∧
    (∀ ctx : ResourceContext, defaultPermissionFactory Operation.update ctx = false) ∧
    (∀ ctx : ResourceContext, defaultPermissionFactory Operation.delete ctx = false) :=
  ⟨fun _ => rfl, fun _ => rfl, fun _ => rfl, fun _ => rfl, fun _ => rfl⟩

/-- C2: when `offset + size` exceeds the configured max result window, the
pipeline returns `ResultWindowExceededError`, its outcome is independent of
the index collaborator (the index is never consulted), and for `page ≥ 1`
the two spec formulations of the bound agree: `page * size` equals
`offset + size`. -/
theorem C2_result_window (Q R : Type) (index : Q → List R)
    (buildQuery : SearchRequest → Q) (maxw : Nat) (req : SearchRequest)
    (hexc : maxw < req.offset + req.size) :
    executeSearch index buildQuery maxw req
        = Except.error PipelineError.resultWindowExceeded ∧
    (∀ index2 : Q → List R,
      executeSearch index buildQuery maxw req
        = executeSearch index2 buildQuery maxw req) ∧
    (1 ≤ req.page → req.page * req.size = req.offset + req.size) := by
  have hw : checkWindow maxw req.offset req.size
      = Except.error PipelineError.resultWindowExceeded := by
    unfold checkWindow
    simp [hexc]
  refine ⟨?_, ?_, ?_⟩
  · unfold executeSearch
    rw [hw]
  · intro index2
    unfold executeSearch
    rw [hw]
  · intro hpage
    obtain ⟨k, hk⟩ := Nat.exists_eq_add_of_le hpage
    unfold SearchRequest.offset
    have h1 : 1 + k - 1 = k := by omega
    rw [hk, h1]
    ring

/-- C2 witness: a request for page 2 of size 6000 against a window of
10000 (offset 6000, offset + size = 12000) is rejected. -/
theorem C2_result_window_witness :
    executeSearch (fun _ : Unit => ([] : List Nat)) (fun _ => ()) 10000
        { q := none, sort := none, page := 2, size := 6000 }
      = Except.error PipelineError.resultWindowExceeded :=
  (C2_result_window Unit Nat (fun _ => []) (fun _ => ()) 10000
    { q := none, sort := none, page := 2, size := 6000 } (by decide)).1

/-- C3: rendering a single record with status 201 yields status code 201
and the media type bound at `record_responsify` time, for every serializer,
identity, payload, and extra-header list; every extra header is a member of
the response headers, and the content-type header set by the serializer
binding is still present (merged, not replaced). -/
theorem C3_record_responsify_code_201
    (serialize : PersistentIdentifier → Doc → String) (mimetype : String)
    (pid : PersistentIdentifier) (record : Doc)
    (headers : List (String × String)) :
    (record_responsify serialize mimetype pid record 201 headers).status_code = 201 ∧
    (record_responsify serialize mimetype pid record 201 headers).content_type = mimetype ∧
    (∀ h ∈ headers,
      h ∈ (record_responsify serialize mimetype pid record 201 headers).headers) ∧
    ("Content-Type", mimetype)
      ∈ (record_responsify serialize mimetype pid record 201 headers).headers := by
  refine ⟨rfl, rfl, ?_, ?_⟩
  · intro h hh
    exact List.mem_cons_of_mem _ hh
  · exact List.mem_cons_self _ _

/-- C3 witness: the concrete rendering from the test suite, with status
201 and an extra `X-Test` header. -/
theorem C3_record_responsify_code_201_witness :
    (record_responsify TestSerializer.serialize "application/x-custom"
        { pid_type := "rec", pid_value := "1" } [("title", "test")] 201
        [("X-Test", "test")]).status_code = 201 ∧
    ("X-Test", "test") ∈ (record_responsify TestSerializer.serialize "application/x-custom"
        { pid_type := "rec", pid_value := "1" } [("title", "test")] 201
        [("X-Test", "test")]).headers :=
  ⟨(C3_record_responsify_code_201 TestSerializer.serialize "application/x-custom"
      { pid_type := "rec", pid_value := "1" } [("title", "test")]
      [("X-Test", "test")]).1,
   (C3_record_responsify_code_201 TestSerializer.serialize "application/x-custom"
      { pid_type := "rec", pid_value := "1" } [("title", "test")]
      [("X-Test", "test")]).2.2.1 ("X-Test", "test") (by simp)⟩

/-- C4: rendering a search result sequence of length N through the
length-reporting serializer of the test suite yields a body reporting
exactly N, for every fetcher, media type, status code, and header list. -/
theorem C4_search_responsify_length (F R : Type) (fetcher : F)
    (mimetype : String) (code : Nat) (headers : List (String × String))
    (result : List R) (N : Nat) (hN : result.length = N) :
    (search_responsify TestSerializer.serialize_search mimetype fetcher result
        code headers).body = toString N := by
  simp [search_responsify, TestSerializer.serialize_search, hN]

/-- C4 witness: the five-element result of the test suite renders a body
reporting 5. -/
theorem C4_search_responsify_length_witness :
    (search_responsify TestSerializer.serialize_search "application/x-custom" ()
        ["a", "a", "a", "a", "a"] 200 []).body = toString (5 : Nat) :=
  C4_search_responsify_length Unit String () "application/x-custom" 200 []
    ["a", "a", "a", "a", "a"] 5 rfl

/-- C5: the post-filter propagation toggle defaults to off, changing it
never changes the base (non-aggregated) hit set for any query, selection,
aggregation configuration, and corpus, and there is a concrete input where
changing it does change the aggregation counts of another facet
category. -/
theorem C5_post_filter_propagation :
    RECORDS_REST_FACETS_POST_FILTERS_PROPAGATE = false ∧
    (∀ (queryMatch : Doc → Bool) (sel : List (String × String))
        (aggs : List String) (docs : List Doc),
      (facetedSearch queryMatch sel aggs true docs).hits
        = (facetedSearch queryMatch sel aggs false docs).hits) ∧
    (facetedSearch (fun _ => true) [("type", "a")] ["type", "subject"] true
        [[("type", "a"), ("subject", "x")], [("type", "b"), ("subject", "y")]]).aggCounts
      ≠ (facetedSearch (fun _ => true) [("type", "a")] ["type", "subject"] false
        [[("type", "a"), ("subject", "x")], [("type", "b"), ("subject", "y")]]).aggCounts := by
  refine ⟨rfl, fun _ _ _ _ => rfl, ?_⟩
  decide

/-- C5 witness: the base-hit invariance applied at a concrete input. -/
theorem C5_post_filter_propagation_witness :
    (facetedSearch (fun _ => true) [("type", "a")] ["type"] true
        [[("type", "a")]]).hits
      = (facetedSearch (fun _ => true) [("type", "a")] ["type"] false
        [[("type", "a")]]).hits :=
  C5_post_filter_propagation.2.1 (fun _ => true) [("type", "a")] ["type"]
    [[("type", "a")]]

/-- C6: a request with `sort=mostrecent` and no query string resolves to
the sort name `mostrecent` — the value of the `noquery` entry of the
`records` default-sort mapping — and not to `bestmatch`, the value of the
query-present entry. -/
theorem C6_sort_mostrecent_noquery :
    resolveSortKey "records" (some "mostrecent") false = some "mostrecent" ∧
    resolveSortKey "records" none false = some "mostrecent" ∧
    (lookupStr RECORDS_REST_DEFAULT_SORT "records").map DefaultSortPair.noquery
      = some "mostrecent" ∧
    (lookupStr RECORDS_REST_DEFAULT_SORT "records").map DefaultSortPair.query
      = some "bestmatch" ∧
    resolveSortKey "records" (some "mostrecent") false ≠ some "bestmatch" := by
  refine ⟨by decide, by decide, by decide, by decide, by decide⟩

/-- C7: rendering is deterministic — two invocations of the bound
record serializer (or search serializer) on equal pids/records (or
fetchers/results), status codes, and extra headers yield equal
responses. -/
theorem C7_render_deterministic (F R : Type)
    (serialize : PersistentIdentifier → Doc → String)
    (serialize_search : F → List R → String) (mimetype : String)
    (pid1 pid2 : PersistentIdentifier) (rec1 rec2 : Doc)
    (code1 code2 : Nat) (hdrs1 hdrs2 : List (String × String))
    (fetcher1 fetcher2 : F) (result1 result2 : List R)
    (hpid : pid1 = pid2) (hrec : rec1 = rec2) (hcode : code1 = code2)
    (hhdrs : hdrs1 = hdrs2) (hf : fetcher1 = fetcher2)
    (hres : result1 = result2) :
    record_responsify serialize mimetype pid1 rec1 code1 hdrs1
      = record_responsify serialize mimetype pid2 rec2 code2 hdrs2 ∧
    search_responsify serialize_search mimetype fetcher1 result1 code1 hdrs1
      = search_responsify serialize_search mimetype fetcher2 result2 code2 hdrs2 := by
  subst hpid hrec hcode hhdrs hf hres
  exact ⟨rfl, rfl⟩

/-- C7 witness: determinism at the concrete test inputs. -/
theorem C7_render_deterministic_witness :
    record_responsify TestSerializer.serialize "application/x-custom"
        { pid_type := "rec", pid_value := "1" } [("title", "test")] 200 []
      = record_responsify TestSerializer.serialize "application/x-custom"
        { pid_type := "rec", pid_value := "1" } [("title", "test")] 200 [] ∧
    search_responsify TestSerializer.serialize_search "application/x-custom"
        () ["a"] 200 []
      = search_responsify TestSerializer.serialize_search "application/x-custom"
        () (["a"] : List String) 200 [] :=
  C7_render_deterministic Unit String TestSerializer.serialize
    TestSerializer.serialize_search "application/x-custom"
    { pid_type := "rec", pid_value := "1" }
    { pid_type := "rec", pid_value := "1" }
    [("title", "test")] [("title", "test")] 200 200 [] [] () ()
    ["a"] ["a"] rfl rfl rfl rfl rfl rfl

/-- C8: a search request that does not specify a page size receives the
default page size, which is 10. -/
theorem C8_default_page_size :
    resolveSize none = 10 ∧ RECORDS_REST_DEFAULT_RESULTS_SIZE = 10 :=
  ⟨rfl, rfl⟩

/-- C9: the default loaders are asymmetric — the json-patch loader parses
the body regardless of the declared content type (forced parsing), while
the plain json loader parses only when the request declares a JSON content
type; on a request with a JSON body but content type `text/plain`, the
patch loader succeeds where the plain loader fails. -/
theorem C9_loader_asymmetry :
    json_patch_loader { content_type := "text/plain", json_body := some [("title", "test")] }
      = some [("title", "test")] ∧
    json_loader { content_type := "text/plain", json_body := some [("title", "test")] }
      = none ∧
    (∀ req : HttpRequest, json_patch_loader req = req.json_body) ∧
    (∀ req : HttpRequest,
      isJsonContentType req.content_type = false → json_loader req = none) ∧
    lookupStr RECORDS_REST_DEFAULT_LOADERS "application/json-patch+json"
      = some json_patch_loader ∧
    lookupStr RECORDS_REST_DEFAULT_LOADERS "application/json" = some json_loader := by
  refine ⟨by decide, by decide, ?_, ?_, by simp [RECORDS_REST_DEFAULT_LOADERS, lookupStr],
    by simp [RECORDS_REST_DEFAULT_LOADERS, lookupStr]⟩
  · intro req
    simp [json_patch_loader, get_json]
  · intro req hct
    simp [json_loader, get_json, hct]

/-- C9 witness: the plain json loader fails on a `text/plain` request. -/
theorem C9_loader_asymmetry_witness :
    json_loader { content_type := "text/plain", json_body := some [("title", "test")] }
      = none :=
  C9_loader_asymmetry.2.2.2.1
    { content_type := "text/plain", json_body := some [("title", "test")] }
    (by decide)

/-- C10: in the default `recid` endpoint, the configured default media type
`application/json` is a key of both the record-serializer map and the
search-serializer map, so the negotiator's final fallback step finds a
registered binding for item and list rendering under every accept
preference order. -/
theorem C10_default_media_type_registered :
    (lookupStr recid_endpoint.record_serializers
        recid_endpoint.default_media_type).isSome = true ∧
    (lookupStr recid_endpoint.search_serializers
        recid_endpoint.default_media_type).isSome = true ∧
    (∀ acceptOrder : List String,
      (selectSerializer none [] acceptOrder recid_endpoint.record_serializers
          recid_endpoint.default_media_type).isSome = true) ∧
    (∀ acceptOrder : List String,
      (selectSerializer none [] acceptOrder recid_endpoint.search_serializers
          recid_endpoint.default_media_type).isSome = true) := by
  refine ⟨by decide, by decide, ?_, ?_⟩
  · intro acceptOrder
    exact selectSerializer_fallback_isSome acceptOrder _ _ (by decide)
  · intro acceptOrder
    exact selectSerializer_fallback_isSome acceptOrder _ _ (by decide)

/-- C10 witness: the fallback with an empty accept order finds the
`application/json` binding of the record-serializer map. -/
theorem C10_default_media_type_registered_witness :
    (selectSerializer none [] [] recid_endpoint.record_serializers
        recid_endpoint.default_media_type).isSome = true :=
  C10_default_media_type_registered.2.2.1 []

end InvenioRecordsRest
